import Mathlib

/-!
Shallow embedding of `atom-feed` (src/src/lib.rs), an Atom 1.0 feed builder
and serializer built on `quick_xml` and `chrono`.

The Rust serializer emits a linear sequence of `quick_xml` events
(`Decl`, `Start`, `Empty`, `Text`, `End`) into a `Writer<W : Write>`,
propagating the first write error with `?`.  We embed each `write` method
as the pure list of events it emits (the event arguments never depend on
the sink), and model the fallible sink separately: `runEvents` feeds the
event list to a sink that may fail on any given write call, reproducing
the fail-fast `?` chain of the source.
-/

namespace AtomFeedLib

/-- Modelled from the spec: `chrono::DateTime<Tz>` is an external
dependency (spec §1: date/time library internals are out of scope).  The
spec requires a timezone-aware datetime whose RFC 3339 rendering keeps the
caller's own UTC offset (spec §6).  We keep the calendar fields and the
signed UTC offset in minutes. -/
structure DateTime where
  year : Nat
  month : Nat
  day : Nat
  hour : Nat
  minute : Nat
  second : Nat
  /-- signed UTC offset, in minutes (e.g. +05:30 is 330) -/
  offsetMinutes : Int
deriving DecidableEq

/-- Zero-pad a numeral to two digits. -/
def pad2 (n : Nat) : String :=
  if n < 10 then "0" ++ toString n else toString n

/-- Zero-pad a numeral to four digits. -/
def pad4 (n : Nat) : String :=
  if n < 10 then "000" ++ toString n
  else if n < 100 then "00" ++ toString n
  else if n < 1000 then "0" ++ toString n
  else toString n

/-- The `±HH:MM` offset tail of an RFC 3339 timestamp, rendered from the
datetime's own offset. -/
def offsetFragment (off : Int) : String :=
  (if off < 0 then "-" else "+") ++ pad2 (off.natAbs / 60) ++ ":" ++ pad2 (off.natAbs % 60)

/-- The `YYYY-MM-DDTHH:MM:SS` body of an RFC 3339 timestamp. -/
def DateTime.datePart (dt : DateTime) : String :=
  pad4 dt.year ++ "-" ++ pad2 dt.month ++ "-" ++ pad2 dt.day ++ "T" ++
  pad2 dt.hour ++ ":" ++ pad2 dt.minute ++ ":" ++ pad2 dt.second

/-- Modelled from the spec: `chrono::DateTime::to_rfc3339` (external to
src/).  Spec §6: "all timestamps rendered as RFC 3339 strings (e.g.,
`2023-01-15T10:30:00+00:00`); ... the caller's timezone is preserved
verbatim in output". -/
def DateTime.to_rfc3339 (dt : DateTime) : String :=
  dt.datePart ++ offsetFragment dt.offsetMinutes

/-- `Generator` (lib.rs:187-192). -/
structure Generator where
  uri : Option String
  version : Option String
  name : String
deriving DecidableEq

/-- `Person` (lib.rs:240-245). -/
structure Person where
  name : String
  uri : Option String
  email : Option String
deriving DecidableEq

/-- `AtomEntry` (lib.rs:296-308). -/
structure AtomEntry where
  title : String
  uri : Option String
  published : Option DateTime
  updated : Option DateTime
  id : Option String
  categories : List String
  authors : List Person
  contributors : List Person
  content : Option String
  summary : Option String
deriving DecidableEq

/-- `AtomFeed` (lib.rs:10-22). -/
structure AtomFeed where
  generator : Option Generator
  published : Option DateTime
  updated : Option DateTime
  uri : Option String
  self_uri : Option String
  id : Option String
  title : String
  subtitle : Option String
  rights : Option String
  entries : List AtomEntry
deriving DecidableEq

/-- The `quick_xml` events the serializer emits (`BytesDecl`,
`BytesStart` with its pushed attributes, `Event::Empty`, `BytesText`,
`BytesEnd`). -/
inductive Event where
  | Decl (version encoding : String)
  | Start (name : String) (attrs : List (String × String))
  | Empty (name : String) (attrs : List (String × String))
  | Text (s : String)
  | End (name : String)
deriving DecidableEq

/-- Events of an optional piece: the `if let Some(x) = ... { ... }` shape
of the source; nothing is emitted when the field is absent. -/
def optList {α : Type} : Option α → (α → List Event) → List Event
  | none, _ => []
  | some a, k => k a

/-- `writer.create_element(n).write_text_content(t)`: a start tag with no
attributes, the text, the end tag. -/
def textEl (n s : String) : List Event :=
  [Event.Start n [], Event.Text s, Event.End n]

/-- `create_element(n).with_attribute(a).write_text_content(t)`. -/
def textElA (n : String) (attrs : List (String × String)) (s : String) : List Event :=
  [Event.Start n attrs, Event.Text s, Event.End n]

/-- `Generator::write` (lib.rs:222-237): a `<generator>` start tag whose
attributes are `uri` (if set) then `version` (if set), the generator name
as text, the end tag. -/
def Generator.write (g : Generator) : List Event :=
  [Event.Start "generator"
      ((match g.uri with
        | some u => [("uri", u)]
        | none => []) ++
       (match g.version with
        | some v => [("version", v)]
        | none => [])),
   Event.Text g.name,
   Event.End "generator"]

/-- `Person::write` (lib.rs:275-293): `<name>`, then `<uri>` if present,
then `<email>` if present. -/
def Person.write (p : Person) : List Event :=
  textEl "name" p.name ++
  optList p.uri (fun u => textEl "uri" u) ++
  optList p.email (fun e => textEl "email" e)

/-- `AtomEntry::write` (lib.rs:389-461). -/
def AtomEntry.write (e : AtomEntry) : List Event :=
  [Event.Start "entry" []] ++
  textEl "title" e.title ++
  optList e.uri (fun u =>
    [Event.Empty "link"
      [("href", u), ("rel", "alternate"), ("type", "text/html"), ("title", e.title)]]) ++
  optList e.published (fun d => textEl "published" d.to_rfc3339) ++
  optList e.updated (fun d => textEl "updated" d.to_rfc3339) ++
  optList e.id (fun i => textEl "id" i) ++
  (e.authors.map (fun a => [Event.Start "author" []] ++ a.write ++ [Event.End "author"])).flatten ++
  (e.contributors.map (fun c => [Event.Start "contributor" []] ++ c.write ++ [Event.End "contributor"])).flatten ++
  (e.categories.map (fun c => [Event.Empty "category" [("term", c)]])).flatten ++
  optList e.summary (fun s => textElA "summary" [("type", "html")] s) ++
  optList e.content (fun c => textElA "content" [("type", "html")] c)

/-- The feed-level events before the entry blocks: `AtomFeed::write`
(lib.rs:124-176), the declaration through the optional subtitle. -/
def AtomFeed.feedPrefix (f : AtomFeed) : List Event :=
  [Event.Decl "1.0" "utf-8",
   Event.Start "feed" [("xmlns", "http://www.w3.org/2005/Atom")]] ++
  optList f.generator Generator.write ++
  optList f.self_uri (fun u =>
    [Event.Empty "link" [("href", u), ("rel", "self"), ("type", "application/atom+xml")]]) ++
  optList f.uri (fun u =>
    [Event.Empty "link" [("href", u), ("rel", "alternate"), ("type", "text/html")]]) ++
  optList f.published (fun d => textEl "published" d.to_rfc3339) ++
  optList f.updated (fun d => textEl "updated" d.to_rfc3339) ++
  optList f.id (fun i => textEl "id" i) ++
  textEl "title" f.title ++
  optList f.subtitle (fun s => textEl "subtitle" s)

/-- `AtomFeed::write` (lib.rs:123-184): the feed prefix, each entry's
block in list order, `</feed>`. -/
def AtomFeed.write (f : AtomFeed) : List Event :=
  f.feedPrefix ++ (f.entries.map AtomEntry.write).flatten ++ [Event.End "feed"]

/-- `AtomFeedBuilder` (lib.rs:24): a newtype over the feed it accumulates. -/
structure AtomFeedBuilder where
  feed : AtomFeed
deriving DecidableEq

/-- `AtomFeedBuilder::new` (lib.rs:30-46). -/
def AtomFeedBuilder.new (title : String) : AtomFeedBuilder :=
  ⟨{ title := title, generator := none, uri := none, self_uri := none,
     published := none, updated := none, id := none, subtitle := none,
     rights := none, entries := [] }⟩

/-- `AtomFeedBuilder::generator` (lib.rs:48-51). -/
def AtomFeedBuilder.generator (b : AtomFeedBuilder) (g : Generator) : AtomFeedBuilder :=
  ⟨{ b.feed with generator := some g }⟩

/-- `AtomFeedBuilder::uri` (lib.rs:53-59). -/
def AtomFeedBuilder.uri (b : AtomFeedBuilder) (u : String) : AtomFeedBuilder :=
  ⟨{ b.feed with uri := some u }⟩

/-- `AtomFeedBuilder::self_uri` (lib.rs:61-67). -/
def AtomFeedBuilder.self_uri (b : AtomFeedBuilder) (u : String) : AtomFeedBuilder :=
  ⟨{ b.feed with self_uri := some u }⟩

/-- `AtomFeedBuilder::id` (lib.rs:69-75). -/
def AtomFeedBuilder.id (b : AtomFeedBuilder) (i : String) : AtomFeedBuilder :=
  ⟨{ b.feed with id := some i }⟩

/-- `AtomFeedBuilder::subtitle` (lib.rs:77-83). -/
def AtomFeedBuilder.subtitle (b : AtomFeedBuilder) (s : String) : AtomFeedBuilder :=
  ⟨{ b.feed with subtitle := some s }⟩

/-- `AtomFeedBuilder::rights` (lib.rs:85-91). -/
def AtomFeedBuilder.rights (b : AtomFeedBuilder) (r : String) : AtomFeedBuilder :=
  ⟨{ b.feed with rights := some r }⟩

/-- `AtomFeedBuilder::published` (lib.rs:93-96). -/
def AtomFeedBuilder.published (b : AtomFeedBuilder) (d : DateTime) : AtomFeedBuilder :=
  ⟨{ b.feed with published := some d }⟩

/-- `AtomFeedBuilder::updated` (lib.rs:98-101). -/
def AtomFeedBuilder.updated (b : AtomFeedBuilder) (d : DateTime) : AtomFeedBuilder :=
  ⟨{ b.feed with updated := some d }⟩

/-- `AtomFeedBuilder::entries` (lib.rs:103-106). -/
def AtomFeedBuilder.entries (b : AtomFeedBuilder) (es : List AtomEntry) : AtomFeedBuilder :=
  ⟨{ b.feed with entries := es }⟩

/-- `AtomFeedBuilder::build` (lib.rs:108-110). -/
def AtomFeedBuilder.build (b : AtomFeedBuilder) : AtomFeed :=
  b.feed

/-- The value the derived `Default` on `AtomFeed` (lib.rs:10) produces:
every `Option` is `None`, `Cow<str>` defaults to the empty string, the
`Vec` is empty. -/
def AtomFeed.defaultValue : AtomFeed :=
  { generator := none, published := none, updated := none, uri := none,
    self_uri := none, id := none, title := "", subtitle := none,
    rights := none, entries := [] }

/-- The value the derived `Default` on `AtomEntry` (lib.rs:296) produces. -/
def AtomEntry.defaultValue : AtomEntry :=
  { title := "", uri := none, published := none, updated := none, id := none,
    categories := [], authors := [], contributors := [], content := none,
    summary := none }

/-- Modelled from the spec: XML escaping is delegated to the external
`quick_xml` writer (spec §4.6); it replaces the XML-special characters in
text content and attribute values. -/
def escapeChar (c : Char) : String :=
  if c = '&' then "&amp;"
  else if c = '<' then "&lt;"
  else if c = '>' then "&gt;"
  else if c = '"' then "&quot;"
  else String.singleton c

/-- Escape a whole string, character by character. -/
def escape (s : String) : String :=
  String.join (s.toList.map escapeChar)

/-- One attribute as `quick_xml` writes it: a leading space, `key="value"`
with the value escaped. -/
def renderAttr (a : String × String) : String :=
  " " ++ a.1 ++ "=\"" ++ escape a.2 ++ "\""

/-- Modelled from the spec: the byte form `quick_xml`'s writer gives each
event (spec §6, output format). -/
def render : Event → String
  | .Decl v e => "<?xml version=\"" ++ v ++ "\" encoding=\"" ++ e ++ "\"?>"
  | .Start n attrs => "<" ++ n ++ String.join (attrs.map renderAttr) ++ ">"
  | .Empty n attrs => "<" ++ n ++ String.join (attrs.map renderAttr) ++ "/>"
  | .Text s => escape s
  | .End n => "</" ++ n ++ ">"

/-- The bytes of a whole event sequence. -/
def renderAll : List Event → String
  | [] => ""
  | e :: rest => render e ++ renderAll rest

/-- The complete serialized document of a feed: what `write_to` leaves in
a fresh sink on success. -/
def AtomFeed.serialize (f : AtomFeed) : String :=
  renderAll f.write

/-- Modelled from the spec: the destination of `write_to`, any
`W : io::Write` (spec §6 sink contract), with fault injection: `schedule`
says whether the n-th write call fails and with which error message. -/
structure ByteSink where
  buf : String
  calls : Nat
  schedule : Nat → Option String

/-- Feed events to the sink one write call per event, as the chain of
`writer.write_event(..)?` calls does: the first failing write stops
everything and its error is returned; earlier bytes stay in the sink. -/
def runEvents : List Event → ByteSink → ByteSink × Option String
  | [], w => (w, none)
  | e :: rest, w =>
    match w.schedule w.calls with
    | some err => (w, some err)
    | none => runEvents rest { w with buf := w.buf ++ render e, calls := w.calls + 1 }

/-- `AtomFeed::write_to` (lib.rs:117-121): wrap the destination in a
writer, run `write`, and give the destination back (second component
`none` is `Ok`, `some err` is the propagated write error). -/
def AtomFeed.write_to (f : AtomFeed) (w : ByteSink) : ByteSink × Option String :=
  runEvents f.write w

/-- The `<generator>` element as the specification words it: "a
`<generator>` element whose attributes are uri then version (each emitted
only if set, uri before version) and whose text content is the generator
name". -/
def specGeneratorElement (g : Generator) : List Event :=
  [Event.Start "generator"
      ((g.uri.map fun u => ("uri", u)).toList ++
       (g.version.map fun v => ("version", v)).toList),
   Event.Text g.name,
   Event.End "generator"]

/-- The feed-level emission sequence exactly as the specification lists it
(spec §4.3 / claim C1): declaration; `<feed>` start tag with the Atom
xmlns; generator element if present; self link if present; alternate link
if present; published, updated, id each if present; title always; subtitle
if present; the entry blocks; `</feed>`. -/
def specFeedWrite (f : AtomFeed) : List Event :=
  [Event.Decl "1.0" "utf-8"] ++
  [Event.Start "feed" [("xmlns", "http://www.w3.org/2005/Atom")]] ++
  (f.generator.map specGeneratorElement).getD [] ++
  (f.self_uri.map fun u =>
      [Event.Empty "link" [("href", u), ("rel", "self"), ("type", "application/atom+xml")]]).getD [] ++
  (f.uri.map fun u =>
      [Event.Empty "link" [("href", u), ("rel", "alternate"), ("type", "text/html")]]).getD [] ++
  (f.published.map fun d => textEl "published" d.to_rfc3339).getD [] ++
  (f.updated.map fun d => textEl "updated" d.to_rfc3339).getD [] ++
  (f.id.map fun i => textEl "id" i).getD [] ++
  textEl "title" f.title ++
  (f.subtitle.map fun s => textEl "subtitle" s).getD [] ++
  (f.entries.map AtomEntry.write).flatten ++
  [Event.End "feed"]

/-- The entry-level emission sequence exactly as the specification lists
it (spec §4.4 / claim C2): title; the four-attribute alternate link if the
URI is present; published, updated, id each if present; author blocks in
order; contributor blocks in order; category tags in order; summary then
content, each if present. -/
def specEntryWrite (e : AtomEntry) : List Event :=
  [Event.Start "entry" []] ++
  textEl "title" e.title ++
  (e.uri.map fun u =>
      [Event.Empty "link"
        [("href", u), ("rel", "alternate"), ("type", "text/html"), ("title", e.title)]]).getD [] ++
  (e.published.map fun d => textEl "published" d.to_rfc3339).getD [] ++
  (e.updated.map fun d => textEl "updated" d.to_rfc3339).getD [] ++
  (e.id.map fun i => textEl "id" i).getD [] ++
  (e.authors.map fun a => [Event.Start "author" []] ++ a.write ++ [Event.End "author"]).flatten ++
  (e.contributors.map fun c => [Event.Start "contributor" []] ++ c.write ++ [Event.End "contributor"]).flatten ++
  (e.categories.map fun c => [Event.Empty "category" [("term", c)]]).flatten ++
  (e.summary.map fun s => textElA "summary" [("type", "html")] s).getD [] ++
  (e.content.map fun c => textElA "content" [("type", "html")] c).getD []

/-- A timestamp carrying the non-UTC offset +05:30 (330 minutes). -/
def sampleDt : DateTime := ⟨2023, 1, 15, 10, 30, 0, 330⟩

/-- An entry whose published and updated timestamps are both `sampleDt`. -/
def sampleEntry : AtomEntry :=
  { title := "E", uri := none, published := some sampleDt,
    updated := some sampleDt, id := none, categories := [], authors := [],
    contributors := [], content := none, summary := none }

/-- A feed whose published and updated timestamps are `sampleDt`, holding
the one entry `sampleEntry`. -/
def sampleFeed : AtomFeed :=
  { generator := none, published := some sampleDt, updated := some sampleDt,
    uri := none, self_uri := none, id := none, title := "F",
    subtitle := none, rights := none, entries := [sampleEntry] }

/-- Is this event a `rights` element (start, empty or end tag)? -/
def isRightsEvent : Event → Bool
  | .Start n _ => n == "rights"
  | .Empty n _ => n == "rights"
  | .End n => n == "rights"
  | _ => false

/-- Is this event the start tag of an `<entry>` block? -/
def isEntryStart : Event → Bool
  | .Start n _ => n == "entry"
  | _ => false

/-- C1: For every Feed value, serialization emits exactly this sequence at
the feed level, in this order: the XML declaration (version "1.0",
encoding "utf-8"); the `<feed>` start tag with the Atom xmlns; if a
Generator is present, a `<generator>` element whose attributes are uri
then version (each only if set, uri before version) with the generator
name as text; if self_uri is present, a self-closing self `<link>`; if uri
is present, a self-closing alternate `<link>` (so the self link precedes
the alternate link whenever both are set); then `<published>`,
`<updated>`, `<id>` (each only if present); then `<title>` (always); then
`<subtitle>` if present; then the entry blocks; then `</feed>`. -/
theorem feed_write_order_spec (f : AtomFeed) : f.write = specFeedWrite f := by
  obtain ⟨g, pub, upd, u, su, i, t, st, r, es⟩ := f
  cases g with
  | none =>
      cases pub <;> cases upd <;> cases u <;> cases su <;> cases i <;> cases st <;> rfl
  | some gen =>
      obtain ⟨gu, gv, gn⟩ := gen
      cases gu <;> cases gv <;> cases pub <;> cases upd <;> cases u <;> cases su <;>
        cases i <;> cases st <;> rfl

/-- C2: For every Entry value, its `<entry>...</entry>` block contains, in
this order: `<title>` (always); if the entry URI is present, a
self-closing `<link>` carrying exactly href, rel="alternate",
type="text/html" and title = the entry's title, in that order;
`<published>` and `<updated>` (RFC 3339) and `<id>`, each only if present;
one `<author>` block per author in list order; one `<contributor>` block
per contributor in list order; one self-closing `<category term="...">`
per category in list order; `<summary type="html">` if summary is present;
`<content type="html">` if content is present. -/
theorem entry_write_order_spec (e : AtomEntry) :
    AtomEntry.write e = specEntryWrite e := by
  obtain ⟨t, u, pub, upd, i, cats, auths, conts, cont, summ⟩ := e
  cases u <;> cases pub <;> cases upd <;> cases i <;> cases summ <;> cases cont <;> rfl

/-- C7: A Feed built with only a title serializes to the XML declaration,
the `<feed>` start tag with the Atom xmlns, a single `<title>` element
with the given text, and the matching `</feed>`, with no optional element
present. -/
theorem title_only_feed_output (t : String) :
    ((AtomFeedBuilder.new t).build).write =
      [Event.Decl "1.0" "utf-8",
       Event.Start "feed" [("xmlns", "http://www.w3.org/2005/Atom")],
       Event.Start "title" [], Event.Text t, Event.End "title",
       Event.End "feed"] := rfl

/-- C8: `new(title)` yields a builder whose title is the given value with
every other field absent and no entries; each setter changes only its own
field, leaving all others exactly as they were (expressed by the record
update); `build()` returns the accumulated feed unchanged.  All builder
operations are total functions, so no call can fail. -/
theorem builder_frame_properties :
    (∀ t : String, (AtomFeedBuilder.new t).feed =
        { generator := none, published := none, updated := none, uri := none,
          self_uri := none, id := none, title := t, subtitle := none,
          rights := none, entries := [] }) ∧
    (∀ (b : AtomFeedBuilder) (g : Generator),
        (b.generator g).feed = { b.feed with generator := some g }) ∧
    (∀ (b : AtomFeedBuilder) (u : String),
        (b.uri u).feed = { b.feed with uri := some u }) ∧
    (∀ (b : AtomFeedBuilder) (u : String),
        (b.self_uri u).feed = { b.feed with self_uri := some u }) ∧
    (∀ (b : AtomFeedBuilder) (i : String),
        (b.id i).feed = { b.feed with id := some i }) ∧
    (∀ (b : AtomFeedBuilder) (s : String),
        (b.subtitle s).feed = { b.feed with subtitle := some s }) ∧
    (∀ (b : AtomFeedBuilder) (r : String),
        (b.rights r).feed = { b.feed with rights := some r }) ∧
    (∀ (b : AtomFeedBuilder) (d : DateTime),
        (b.published d).feed = { b.feed with published := some d }) ∧
    (∀ (b : AtomFeedBuilder) (d : DateTime),
        (b.updated d).feed = { b.feed with updated := some d }) ∧
    (∀ (b : AtomFeedBuilder) (es : List AtomEntry),
        (b.entries es).feed = { b.feed with entries := es }) ∧
    (∀ b : AtomFeedBuilder, b.build = b.feed) :=
  ⟨fun _ => rfl, fun _ _ => rfl, fun _ _ => rfl, fun _ _ => rfl, fun _ _ => rfl,
   fun _ _ => rfl, fun _ _ => rfl, fun _ _ => rfl, fun _ _ => rfl, fun _ _ => rfl,
   fun _ => rfl⟩

theorem countP_optList {α : Type} (p : Event → Bool) (o : Option α) (k : α → List Event)
    (h : ∀ a, (k a).countP p = 0) : (optList o k).countP p = 0 := by
  cases o with
  | none => rfl
  | some a => exact h a

theorem generator_write_countP_rights (g : Generator) :
    g.write.countP isRightsEvent = 0 := by
  obtain ⟨gu, gv, gn⟩ := g
  cases gu <;> cases gv <;> rfl

theorem generator_write_countP_entry (g : Generator) :
    g.write.countP isEntryStart = 0 := by
  obtain ⟨gu, gv, gn⟩ := g
  cases gu <;> cases gv <;> rfl

theorem countP_flatten_zero (p : Event → Bool) (l : List (List Event))
    (h : ∀ x ∈ l, x.countP p = 0) : l.flatten.countP p = 0 := by
  induction l with
  | nil => rfl
  | cons x xs ih =>
      rw [List.flatten_cons, List.countP_append, h x (by simp),
        ih (fun y hy => h y (by simp [hy]))]

theorem person_write_countP_rights (p : Person) :
    p.write.countP isRightsEvent = 0 := by
  obtain ⟨n, u, em⟩ := p
  cases u <;> cases em <;> rfl

theorem authors_flatten_countP_rights (l : List Person) :
    ((l.map fun a => [Event.Start "author" []] ++ a.write ++ [Event.End "author"]).flatten).countP
      isRightsEvent = 0 := by
  apply countP_flatten_zero
  intro x hx
  simp only [List.mem_map] at hx
  obtain ⟨a, _, rfl⟩ := hx
  rw [List.countP_append, List.countP_append, person_write_countP_rights]
  rfl

theorem contributors_flatten_countP_rights (l : List Person) :
    ((l.map fun c => [Event.Start "contributor" []] ++ c.write ++ [Event.End "contributor"]).flatten).countP
      isRightsEvent = 0 := by
  apply countP_flatten_zero
  intro x hx
  simp only [List.mem_map] at hx
  obtain ⟨c, _, rfl⟩ := hx
  rw [List.countP_append, List.countP_append, person_write_countP_rights]
  rfl

theorem categories_flatten_countP_rights (l : List String) :
    ((l.map fun c => [Event.Empty "category" [("term", c)]]).flatten).countP
      isRightsEvent = 0 := by
  apply countP_flatten_zero
  intro x hx
  simp only [List.mem_map] at hx
  obtain ⟨c, _, rfl⟩ := hx
  rfl

theorem entry_write_countP_rights (e : AtomEntry) :
    e.write.countP isRightsEvent = 0 := by
  obtain ⟨t, u, pub, upd, i, cats, auths, conts, cont, summ⟩ := e
  simp only [AtomEntry.write, List.countP_append, authors_flatten_countP_rights,
    contributors_flatten_countP_rights, categories_flatten_countP_rights]
  cases u <;> cases pub <;> cases upd <;> cases i <;> cases summ <;> cases cont <;>
    simp [optList, textEl, textElA, List.countP_cons, isRightsEvent]

theorem feedPrefix_countP_rights (f : AtomFeed) :
    f.feedPrefix.countP isRightsEvent = 0 := by
  simp only [AtomFeed.feedPrefix, List.countP_append]
  rw [countP_optList _ f.generator _ generator_write_countP_rights,
    countP_optList isRightsEvent f.self_uri
      (fun u => [Event.Empty "link" [("href", u), ("rel", "self"), ("type", "application/atom+xml")]])
      (fun a => rfl),
    countP_optList isRightsEvent f.uri
      (fun u => [Event.Empty "link" [("href", u), ("rel", "alternate"), ("type", "text/html")]])
      (fun a => rfl),
    countP_optList isRightsEvent f.published (fun d => textEl "published" d.to_rfc3339) (fun a => rfl),
    countP_optList isRightsEvent f.updated (fun d => textEl "updated" d.to_rfc3339) (fun a => rfl),
    countP_optList isRightsEvent f.id (fun i => textEl "id" i) (fun a => rfl),
    countP_optList isRightsEvent f.subtitle (fun s => textEl "subtitle" s) (fun a => rfl)]
  rfl

theorem entries_flatten_countP_rights (es : List AtomEntry) :
    ((es.map AtomEntry.write).flatten).countP isRightsEvent = 0 := by
  apply countP_flatten_zero
  intro x hx
  simp only [List.mem_map] at hx
  obtain ⟨e, _, rfl⟩ := hx
  exact entry_write_countP_rights e

/-- C3: the serializer never writes the Feed's rights field — two Feeds
that differ only in `rights` serialize to byte-identical output, and no
output ever contains a `rights` element (no start, empty or end tag named
`rights` in the event stream). -/
theorem rights_never_written (f : AtomFeed) (r₁ r₂ : Option String) :
    AtomFeed.serialize { f with rights := r₁ } =
      AtomFeed.serialize { f with rights := r₂ } ∧
    f.write.countP isRightsEvent = 0 := by
  refine ⟨rfl, ?_⟩
  simp only [AtomFeed.write, List.countP_append, feedPrefix_countP_rights,
    entries_flatten_countP_rights]
  rfl

theorem person_write_countP_entry (p : Person) :
    p.write.countP isEntryStart = 0 := by
  obtain ⟨n, u, em⟩ := p
  cases u <;> cases em <;> rfl

theorem authors_flatten_countP_entry (l : List Person) :
    ((l.map fun a => [Event.Start "author" []] ++ a.write ++ [Event.End "author"]).flatten).countP
      isEntryStart = 0 := by
  apply countP_flatten_zero
  intro x hx
  simp only [List.mem_map] at hx
  obtain ⟨a, _, rfl⟩ := hx
  rw [List.countP_append, List.countP_append, person_write_countP_entry]
  rfl

theorem contributors_flatten_countP_entry (l : List Person) :
    ((l.map fun c => [Event.Start "contributor" []] ++ c.write ++ [Event.End "contributor"]).flatten).countP
      isEntryStart = 0 := by
  apply countP_flatten_zero
  intro x hx
  simp only [List.mem_map] at hx
  obtain ⟨c, _, rfl⟩ := hx
  rw [List.countP_append, List.countP_append, person_write_countP_entry]
  rfl

theorem categories_flatten_countP_entry (l : List String) :
    ((l.map fun c => [Event.Empty "category" [("term", c)]]).flatten).countP
      isEntryStart = 0 := by
  apply countP_flatten_zero
  intro x hx
  simp only [List.mem_map] at hx
  obtain ⟨c, _, rfl⟩ := hx
  rfl

theorem entry_write_countP_entry (e : AtomEntry) :
    e.write.countP isEntryStart = 1 := by
  obtain ⟨t, u, pub, upd, i, cats, auths, conts, cont, summ⟩ := e
  simp only [AtomEntry.write, List.countP_append, authors_flatten_countP_entry,
    contributors_flatten_countP_entry, categories_flatten_countP_entry]
  cases u <;> cases pub <;> cases upd <;> cases i <;> cases summ <;> cases cont <;>
    simp [optList, textEl, textElA, List.countP_cons, isEntryStart]

theorem feedPrefix_countP_entry (f : AtomFeed) :
    f.feedPrefix.countP isEntryStart = 0 := by
  simp only [AtomFeed.feedPrefix, List.countP_append]
  rw [countP_optList _ f.generator _ generator_write_countP_entry,
    countP_optList isEntryStart f.self_uri
      (fun u => [Event.Empty "link" [("href", u), ("rel", "self"), ("type", "application/atom+xml")]])
      (fun a => rfl),
    countP_optList isEntryStart f.uri
      (fun u => [Event.Empty "link" [("href", u), ("rel", "alternate"), ("type", "text/html")]])
      (fun a => rfl),
    countP_optList isEntryStart f.published (fun d => textEl "published" d.to_rfc3339) (fun a => rfl),
    countP_optList isEntryStart f.updated (fun d => textEl "updated" d.to_rfc3339) (fun a => rfl),
    countP_optList isEntryStart f.id (fun i => textEl "id" i) (fun a => rfl),
    countP_optList isEntryStart f.subtitle (fun s => textEl "subtitle" s) (fun a => rfl)]
  rfl

theorem entries_flatten_countP_entry (es : List AtomEntry) :
    ((es.map AtomEntry.write).flatten).countP isEntryStart = es.length := by
  induction es with
  | nil => rfl
  | cons e rest ih =>
      rw [List.map_cons, List.flatten_cons, List.countP_append,
        entry_write_countP_entry, ih, List.length_cons]
      omega

/-- C4: for every Feed with N entries the output contains exactly N
`<entry>` blocks (the count of `<entry>` start tags is the length of the
entries list, and none occurs in the feed prefix), and the blocks appear
consecutively in list order between the feed prefix and `</feed>`. -/
theorem entries_count_and_order (f : AtomFeed) :
    f.write.countP isEntryStart = f.entries.length ∧
    f.feedPrefix.countP isEntryStart = 0 ∧
    f.write = f.feedPrefix ++ (f.entries.map AtomEntry.write).flatten ++
      [Event.End "feed"] := by
  refine ⟨?_, feedPrefix_countP_entry f, by simp [AtomFeed.write]⟩
  simp only [AtomFeed.write, List.countP_append, feedPrefix_countP_entry,
    entries_flatten_countP_entry]
  have h : List.countP isEntryStart [Event.End "feed"] = 0 := rfl
  omega

theorem split_trans {α : Type} {L M m : List α}
    (h1 : ∃ p q, L = p ++ M ++ q) (h2 : ∃ p q, M = p ++ m ++ q) :
    ∃ p q, L = p ++ m ++ q := by
  obtain ⟨p1, q1, rfl⟩ := h1
  obtain ⟨p2, q2, rfl⟩ := h2
  exact ⟨p1 ++ p2, q2 ++ q1, by simp [List.append_assoc]⟩

theorem entry_block_split (f : AtomFeed) (e : AtomEntry) (he : e ∈ f.entries) :
    ∃ pre post, f.write = pre ++ e.write ++ post := by
  obtain ⟨s, t, hst⟩ := List.append_of_mem he
  refine ⟨f.feedPrefix ++ (s.map AtomEntry.write).flatten,
          (t.map AtomEntry.write).flatten ++ [Event.End "feed"], ?_⟩
  rw [AtomFeed.write, hst]
  simp [List.map_append, List.flatten_append, List.append_assoc]

theorem entry_published_split (e : AtomEntry) (dt : DateTime)
    (h : e.published = some dt) :
    ∃ pre post, e.write = pre ++ textEl "published" dt.to_rfc3339 ++ post := by
  refine ⟨[Event.Start "entry" []] ++ textEl "title" e.title ++
      optList e.uri (fun u =>
        [Event.Empty "link"
          [("href", u), ("rel", "alternate"), ("type", "text/html"), ("title", e.title)]]),
    optList e.updated (fun d => textEl "updated" d.to_rfc3339) ++
      optList e.id (fun i => textEl "id" i) ++
      (e.authors.map fun a => [Event.Start "author" []] ++ a.write ++ [Event.End "author"]).flatten ++
      (e.contributors.map fun c => [Event.Start "contributor" []] ++ c.write ++ [Event.End "contributor"]).flatten ++
      (e.categories.map fun c => [Event.Empty "category" [("term", c)]]).flatten ++
      optList e.summary (fun s => textElA "summary" [("type", "html")] s) ++
      optList e.content (fun c => textElA "content" [("type", "html")] c), ?_⟩
  rw [AtomEntry.write, h]
  simp [optList, List.append_assoc]

theorem entry_updated_split (e : AtomEntry) (dt : DateTime)
    (h : e.updated = some dt) :
    ∃ pre post, e.write = pre ++ textEl "updated" dt.to_rfc3339 ++ post := by
  refine ⟨[Event.Start "entry" []] ++ textEl "title" e.title ++
      optList e.uri (fun u =>
        [Event.Empty "link"
          [("href", u), ("rel", "alternate"), ("type", "text/html"), ("title", e.title)]]) ++
      optList e.published (fun d => textEl "published" d.to_rfc3339),
    optList e.id (fun i => textEl "id" i) ++
      (e.authors.map fun a => [Event.Start "author" []] ++ a.write ++ [Event.End "author"]).flatten ++
      (e.contributors.map fun c => [Event.Start "contributor" []] ++ c.write ++ [Event.End "contributor"]).flatten ++
      (e.categories.map fun c => [Event.Empty "category" [("term", c)]]).flatten ++
      optList e.summary (fun s => textElA "summary" [("type", "html")] s) ++
      optList e.content (fun c => textElA "content" [("type", "html")] c), ?_⟩
  rw [AtomEntry.write, h]
  simp [optList, List.append_assoc]

theorem feed_published_split (f : AtomFeed) (dt : DateTime)
    (h : f.published = some dt) :
    ∃ pre post, f.write = pre ++ textEl "published" dt.to_rfc3339 ++ post := by
  refine ⟨[Event.Decl "1.0" "utf-8",
      Event.Start "feed" [("xmlns", "http://www.w3.org/2005/Atom")]] ++
      optList f.generator Generator.write ++
      optList f.self_uri (fun u =>
        [Event.Empty "link" [("href", u), ("rel", "self"), ("type", "application/atom+xml")]]) ++
      optList f.uri (fun u =>
        [Event.Empty "link" [("href", u), ("rel", "alternate"), ("type", "text/html")]]),
    optList f.updated (fun d => textEl "updated" d.to_rfc3339) ++
      optList f.id (fun i => textEl "id" i) ++ textEl "title" f.title ++
      optList f.subtitle (fun s => textEl "subtitle" s) ++
      (f.entries.map AtomEntry.write).flatten ++ [Event.End "feed"], ?_⟩
  rw [AtomFeed.write, AtomFeed.feedPrefix, h]
  simp [optList, List.append_assoc]

theorem feed_updated_split (f : AtomFeed) (dt : DateTime)
    (h : f.updated = some dt) :
    ∃ pre post, f.write = pre ++ textEl "updated" dt.to_rfc3339 ++ post := by
  refine ⟨[Event.Decl "1.0" "utf-8",
      Event.Start "feed" [("xmlns", "http://www.w3.org/2005/Atom")]] ++
      optList f.generator Generator.write ++
      optList f.self_uri (fun u =>
        [Event.Empty "link" [("href", u), ("rel", "self"), ("type", "application/atom+xml")]]) ++
      optList f.uri (fun u =>
        [Event.Empty "link" [("href", u), ("rel", "alternate"), ("type", "text/html")]]) ++
      optList f.published (fun d => textEl "published" d.to_rfc3339),
    optList f.id (fun i => textEl "id" i) ++ textEl "title" f.title ++
      optList f.subtitle (fun s => textEl "subtitle" s) ++
      (f.entries.map AtomEntry.write).flatten ++ [Event.End "feed"], ?_⟩
  rw [AtomFeed.write, AtomFeed.feedPrefix, h]
  simp [optList, List.append_assoc]

/-- C5: every timestamp (feed or entry published/updated) is rendered as
an RFC 3339 string whose text is `to_rfc3339` of the stored value — the
element appears verbatim in the event stream — and that string ends in the
offset fragment built from the value's own UTC offset, so a non-UTC offset
such as +05:30 appears verbatim with no normalization to Z/UTC. -/
theorem timestamp_offset_preserved (f : AtomFeed) (e : AtomEntry) (dt : DateTime) :
    (f.published = some dt →
      ∃ pre post, f.write = pre ++ textEl "published" dt.to_rfc3339 ++ post) ∧
    (f.updated = some dt →
      ∃ pre post, f.write = pre ++ textEl "updated" dt.to_rfc3339 ++ post) ∧
    (e ∈ f.entries → e.published = some dt →
      ∃ pre post, f.write = pre ++ textEl "published" dt.to_rfc3339 ++ post) ∧
    (e ∈ f.entries → e.updated = some dt →
      ∃ pre post, f.write = pre ++ textEl "updated" dt.to_rfc3339 ++ post) ∧
    (∃ p, dt.to_rfc3339 = p ++ offsetFragment dt.offsetMinutes) :=
  ⟨fun h => feed_published_split f dt h,
   fun h => feed_updated_split f dt h,
   fun he h => split_trans (entry_block_split f e he) (entry_published_split e dt h),
   fun he h => split_trans (entry_block_split f e he) (entry_updated_split e dt h),
   ⟨dt.datePart, rfl⟩⟩

/-- Witness for C5 at `sampleFeed`/`sampleEntry`/`sampleDt`, whose offset
+05:30 appears verbatim in the rendered timestamp. -/
theorem timestamp_offset_preserved_witness :
    (∃ pre post, sampleFeed.write =
        pre ++ textEl "published" sampleDt.to_rfc3339 ++ post) ∧
    (∃ pre post, sampleFeed.write =
        pre ++ textEl "updated" sampleDt.to_rfc3339 ++ post) ∧
    (∃ p, sampleDt.to_rfc3339 = p ++ offsetFragment sampleDt.offsetMinutes) ∧
    sampleDt.to_rfc3339 = "2023-01-15T10:30:00+05:30" ∧
    offsetFragment sampleDt.offsetMinutes = "+05:30" := by
  have h := timestamp_offset_preserved sampleFeed sampleEntry sampleDt
  refine ⟨h.2.2.1 (by simp [sampleFeed]) rfl, h.2.2.2.1 (by simp [sampleFeed]) rfl,
    h.2.2.2.2, by decide, by decide⟩

theorem runEvents_none_buf (l : List Event) (w : ByteSink)
    (h : (runEvents l w).2 = none) :
    (runEvents l w).1.buf = w.buf ++ renderAll l := by
  induction l generalizing w with
  | nil => simp [runEvents, renderAll, String.append_empty]
  | cons e rest ih =>
      cases hs : w.schedule w.calls with
      | some err => simp [runEvents, hs] at h
      | none =>
          simp only [runEvents, hs] at h ⊢
          rw [ih _ h]
          simp [renderAll, String.append_assoc]

theorem runEvents_success (l : List Event) (w : ByteSink)
    (h : ∀ n, n < l.length → w.schedule (w.calls + n) = none) :
    runEvents l w =
      ({ buf := w.buf ++ renderAll l, calls := w.calls + l.length,
         schedule := w.schedule }, none) := by
  induction l generalizing w with
  | nil =>
      simp only [runEvents, renderAll, List.length_nil, Nat.add_zero,
        String.append_empty]
  | cons e rest ih =>
      have h0 : w.schedule w.calls = none := by simpa using h 0 (by simp)
      simp only [runEvents, h0]
      rw [ih _ (fun n hn => by
        show w.schedule (w.calls + 1 + n) = none
        rw [show w.calls + 1 + n = w.calls + (n + 1) from by omega]
        exact h (n + 1) (by simpa using Nat.succ_lt_succ hn))]
      have hb : (w.buf ++ render e) ++ renderAll rest =
          w.buf ++ renderAll (e :: rest) := by
        rw [String.append_assoc]; rfl
      have hc : w.calls + 1 + rest.length = w.calls + (e :: rest).length := by
        simp [List.length_cons]; omega
      rw [hb, hc]

theorem runEvents_fail (l : List Event) (w : ByteSink) (k : Nat) (err : String)
    (hk : k < l.length)
    (hpre : ∀ n, n < k → w.schedule (w.calls + n) = none)
    (hfail : w.schedule (w.calls + k) = some err) :
    runEvents l w =
      ({ buf := w.buf ++ renderAll (l.take k), calls := w.calls + k,
         schedule := w.schedule }, some err) := by
  induction l generalizing w k with
  | nil => exact absurd hk (by simp)
  | cons e rest ih =>
      cases k with
      | zero =>
          have h0 : w.schedule w.calls = some err := by simpa using hfail
          simp only [runEvents, h0, List.take_zero, renderAll, Nat.add_zero,
            String.append_empty]
      | succ j =>
          have h0 : w.schedule w.calls = none := by
            simpa using hpre 0 (by omega)
          simp only [runEvents, h0]
          rw [ih _ j (by simp only [List.length_cons] at hk; omega)
            (fun n hn => by
              show w.schedule (w.calls + 1 + n) = none
              rw [show w.calls + 1 + n = w.calls + (n + 1) from by omega]
              exact hpre (n + 1) (by omega))
            (by
              show w.schedule (w.calls + 1 + j) = some err
              rw [show w.calls + 1 + j = w.calls + (j + 1) from by omega]
              exact hfail)]
          have hb : (w.buf ++ render e) ++ renderAll (rest.take j) =
              w.buf ++ renderAll ((e :: rest).take (j + 1)) := by
            rw [String.append_assoc]; rfl
          have hc : w.calls + 1 + j = w.calls + (j + 1) := by omega
          rw [hb, hc]

/-- C6: serialization is deterministic — running the serializer on the
same Feed value into two fresh sinks, whenever both runs succeed, leaves
byte-identical contents in both sinks. -/
theorem serialize_deterministic (f : AtomFeed) (w₁ w₂ : ByteSink)
    (h₁ : w₁.buf = "") (h₂ : w₂.buf = "")
    (s₁ : (f.write_to w₁).2 = none) (s₂ : (f.write_to w₂).2 = none) :
    (f.write_to w₁).1.buf = (f.write_to w₂).1.buf := by
  have a1 := runEvents_none_buf f.write w₁ s₁
  have a2 := runEvents_none_buf f.write w₂ s₂
  show (runEvents f.write w₁).1.buf = (runEvents f.write w₂).1.buf
  rw [a1, a2, h₁, h₂]

/-- Witness for C6: two fresh reliable sinks receive identical bytes. -/
theorem serialize_deterministic_witness :
    (((AtomFeedBuilder.new "W").build).write_to ⟨"", 0, fun _ => none⟩).1.buf =
      (((AtomFeedBuilder.new "W").build).write_to ⟨"", 7, fun _ => none⟩).1.buf :=
  serialize_deterministic _ _ _ rfl rfl rfl rfl

/-- C9: `write_to` returns the caller's sink on success with the complete
document appended; on the first failing write (the k-th write call) it
stops immediately — only the first k events' bytes are in the sink, no
element after the failed step is emitted — and that single write error is
returned to the caller. -/
theorem write_to_error_propagation :
    (∀ (f : AtomFeed) (w : ByteSink),
      (∀ n, n < f.write.length → w.schedule (w.calls + n) = none) →
      f.write_to w =
        ({ buf := w.buf ++ f.serialize, calls := w.calls + f.write.length,
           schedule := w.schedule }, none)) ∧
    (∀ (f : AtomFeed) (w : ByteSink) (k : Nat) (err : String),
      k < f.write.length →
      (∀ n, n < k → w.schedule (w.calls + n) = none) →
      w.schedule (w.calls + k) = some err →
      f.write_to w =
        ({ buf := w.buf ++ renderAll (f.write.take k), calls := w.calls + k,
           schedule := w.schedule }, some err)) :=
  ⟨fun f w h => runEvents_success f.write w h,
   fun f w k err hk h1 h2 => runEvents_fail f.write w k err hk h1 h2⟩

/-- Witness for C9: a title-only feed written to a reliable sink succeeds
with the whole document in the sink; with a sink whose third write call
fails, serialization stops there, leaves only the first two events' bytes,
and returns the error. -/
theorem write_to_error_propagation_witness :
    (((AtomFeedBuilder.new "T").build).write_to ⟨"", 0, fun _ => none⟩ =
      ({ buf := "" ++ ((AtomFeedBuilder.new "T").build).serialize,
         calls := 0 + ((AtomFeedBuilder.new "T").build).write.length,
         schedule := fun _ => none }, none)) ∧
    (((AtomFeedBuilder.new "T").build).write_to
        ⟨"", 0, fun n => if n == 2 then some "broken pipe" else none⟩ =
      ({ buf := "" ++ renderAll (((AtomFeedBuilder.new "T").build).write.take 2),
         calls := 0 + 2,
         schedule := fun n => if n == 2 then some "broken pipe" else none },
       some "broken pipe")) :=
  ⟨write_to_error_propagation.1 _ _ (fun n _ => rfl),
   write_to_error_propagation.2 _ _ 2 _ (by decide) (by decide) rfl⟩

/-- C10: the derived `Default` values bypass the builder and carry an
empty-string title; serializing the default Feed succeeds, emitting a
`<title>` element with empty text, while builder-constructed values always
carry the title given to `new` — so the "title required" guarantee holds
only for builder-constructed values. -/
theorem default_bypasses_builder :
    AtomFeed.defaultValue.title = "" ∧
    AtomEntry.defaultValue.title = "" ∧
    AtomFeed.defaultValue.write =
      [Event.Decl "1.0" "utf-8",
       Event.Start "feed" [("xmlns", "http://www.w3.org/2005/Atom")],
       Event.Start "title" [], Event.Text "", Event.End "title",
       Event.End "feed"] ∧
    (AtomFeed.defaultValue.write_to ⟨"", 0, fun _ => none⟩).2 = none ∧
    (AtomFeed.defaultValue.write_to ⟨"", 0, fun _ => none⟩).1.buf =
      "<?xml version=\"1.0\" encoding=\"utf-8\"?><feed xmlns=\"http://www.w3.org/2005/Atom\"><title></title></feed>" ∧
    (∀ t : String, ((AtomFeedBuilder.new t).build).title = t) :=
  ⟨rfl, rfl, rfl, rfl, by decide, fun _ => rfl⟩

end AtomFeedLib
